import Mathlib

/-!
Shallow embedding of the rclone `telegram` backend
(`backend/telegram/telegram.go`).

The remote Telegram channel is modelled as a chronological list of
messages, oldest first, in the order `getUpdates` reports them; each
message may carry a named document.  Sending a document appends a
message to the channel.  The catalog of stored objects is the most
recent document named `filelist.json`, decoded as a JSON list of object
names.  Machine-level details that cannot influence the claims (HTTP
framing, the bot token, the chat id, the `fs.Fs` receiver fields) are
not part of the state.
-/

/-- A document payload.  `bytes` is raw user object content, which never
decodes as a JSON string list in this model; `names` is the JSON
encoding of a list of object names as produced by `json.MarshalIndent`
in `Fs.Put` (line 99), which always decodes back to the same list. -/
inductive Payload where
  | bytes (data : List Nat)
  | names (l : List String)
  deriving DecidableEq

/-- A named document attached to a channel message, with the fields
`loadFileList` reads from `getUpdates` (file name and content). -/
structure Doc where
  fileName : String
  payload : Payload
  deriving DecidableEq

/-- A channel message as reported by `getUpdates`: it may or may not
carry a document (the `msg.Document != nil` check on line 162). -/
structure Msg where
  document : Option Doc
  deriving DecidableEq

/-- Errors surfaced by the backend operations: `notFound` is the
`filelist.json not found` error (line 168), `decodeError` a JSON decode
failure (lines 156, 182, 192), `transportError` a failed HTTP call or a
non-200 status (lines 85-91, 121-128), `notImplemented` is
`fs.ErrorNotImplemented` and `hashUnsupported` is
`fs.ErrorHashUnsupported` (lines 228-231). -/
inductive Err where
  | notFound
  | decodeError
  | transportError
  | notImplemented
  | hashUnsupported
  deriving DecidableEq

/-- Decoding a payload as a JSON list of strings, as
`json.NewDecoder(fileResp.Body).Decode(&fileList)` does on line 192:
a `names` payload decodes to its list, raw bytes fail to decode. -/
def decodeFileList : Payload → Option (List String)
  | .names l => some l
  | .bytes _ => none

/-- The message appended by the object upload in `Fs.Put` (lines
63-91): a document named after the object, carrying its content. -/
def uploadBlobMsg (name : String) (data : List Nat) : Msg :=
  ⟨some ⟨name, .bytes data⟩⟩

/-- The message appended when `Fs.Put` publishes the file list (lines
103-128): a document named `filelist.json` whose payload encodes the
list. -/
def catalogMsg (l : List String) : Msg :=
  ⟨some ⟨"filelist.json", .names l⟩⟩

/-- The per-message test of the scan on line 162: the document of the
message, if it is named `filelist.json`. -/
def isCatalogDoc (m : Msg) : Option Doc :=
  match m.document with
  | some d => if d.fileName = "filelist.json" then some d else none
  | none => none

/-- The backwards scan of `loadFileList` (lines 159-166): walk the
updates from the most recent to the oldest and take the first document
named `filelist.json`, i.e. the chronologically last one. -/
def findLastCatalog (ch : List Msg) : Option Doc :=
  ch.reverse.findSome? isCatalogDoc

/-- `Fs.loadFileList` (lines 134-196): find the most recent
`filelist.json` document; fail with `notFound` when there is none
(line 168), fail with `decodeError` when its payload does not decode as
a list of names (line 192), and otherwise return the decoded list. -/
def Fs.loadFileList (ch : List Msg) : Except Err (List String) :=
  match findLastCatalog ch with
  | none => .error .notFound
  | some d =>
    match decodeFileList d.payload with
    | none => .error .decodeError
    | some l => .ok l

deriving instance DecidableEq for Except

/-- A stored object handle (`TelegramObject`, lines 217-220).  The `fs`
back-pointer carries only configuration, no catalog state, and is
omitted. -/
structure TelegramObject where
  name : String
  deriving DecidableEq

/-- The list `Fs.Put` starts from before appending the new name (lines
94-97): the loaded file list, or the empty list when `loadFileList`
fails for any reason. -/
def Fs.putBaseList (ch : List Msg) : List String :=
  match Fs.loadFileList ch with
  | .ok l => l
  | .error _ => []

/-- The channel state after a `Put` call together with its returned
value. -/
structure PutOutcome where
  channel : List Msg
  result : Except Err (Option TelegramObject)
  deriving DecidableEq

/-- `Fs.Put` (lines 55-131).  `blobOk` and `catalogOk` say whether the
two `sendDocument` transport calls succeed (lines 84-91 and 116-128);
a failed call appends no message.  The object blob is sent first; only
then is the file list loaded (falling back to empty on any error,
lines 94-97), the new name appended (line 98) and the new list
published.  On success the code returns `nil, nil` (line 130),
modelled as `.ok none`. -/
def Fs.put (ch : List Msg) (name : String) (data : List Nat)
    (blobOk catalogOk : Bool) : PutOutcome :=
  match blobOk with
  | false => ⟨ch, .error .transportError⟩
  | true =>
    let ch1 := ch ++ [uploadBlobMsg name data]
    let newList := Fs.putBaseList ch1 ++ [name]
    match catalogOk with
    | false => ⟨ch1, .error .transportError⟩
    | true => ⟨ch1 ++ [catalogMsg newList], .ok none⟩

/-- `Fs.List` (lines 199-213): load the file list, propagate its error,
and return one object per name, in list order.  The `dir` argument is
accepted but never used by the code. -/
def Fs.list (ch : List Msg) (dir : String) : Except Err (List TelegramObject) :=
  match Fs.loadFileList ch with
  | .error e => .error e
  | .ok l => .ok (l.map TelegramObject.mk)

/-- The time type returned by `ModTime` (`fs.Time`); `Time.mk 0` stands
for the zero value `fs.Time{}`. -/
structure Time where
  val : Int
  deriving DecidableEq

/-- `Remote` (line 222). -/
def TelegramObject.Remote (o : TelegramObject) : String := o.name

/-- `ModTime` (line 223): returns the zero time and a nil error. -/
def TelegramObject.ModTime (o : TelegramObject) : Except Err Time := .ok ⟨0⟩

/-- `Size` (line 224): always zero. -/
def TelegramObject.Size (o : TelegramObject) : Int := 0

/-- `Hash` (line 228): always fails with `fs.ErrorHashUnsupported`,
whatever the hash type argument is. -/
def TelegramObject.Hash (o : TelegramObject) (ty : Nat) : Except Err String :=
  .error .hashUnsupported

/-- `Remove` (line 229): always fails with `fs.ErrorNotImplemented`. -/
def TelegramObject.Remove (o : TelegramObject) : Except Err Unit :=
  .error .notImplemented

/-- `Update` (line 230): always fails with `fs.ErrorNotImplemented`,
whatever the new content is. -/
def TelegramObject.Update (o : TelegramObject) (data : List Nat) : Except Err Unit :=
  .error .notImplemented

/-- `Open` (line 231): always fails with `fs.ErrorNotImplemented`. -/
def TelegramObject.Open (o : TelegramObject) : Except Err (List Nat) :=
  .error .notImplemented

/-- The spec's `UnsupportedOperationError` class: both Go sentinels
`fs.ErrorNotImplemented` and `fs.ErrorHashUnsupported` denote the
deliberate unsupported-operation boundary. -/
def Err.isUnsupported : Err → Bool
  | .notImplemented => true
  | .hashUnsupported => true
  | _ => false

/-- Whether `p` is a leading prefix of `s`, character by character. -/
def strStarts (p s : String) : Bool := p.data.isPrefixOf s.data

/-- Modelled from the spec: the listing prescribed by spec section 4.3,
`list` step 2 — the catalog entries whose name starts with the given
path, in catalog order, with an empty path keeping all entries.  Stated
from the spec's words, to be compared with `Fs.list`. -/
def Fs.listSpec (ch : List Msg) (p : String) : Except Err (List TelegramObject) :=
  match Fs.loadFileList ch with
  | .error e => .error e
  | .ok l => .ok ((l.filter fun n => strStarts p n).map TelegramObject.mk)

/-- The channel produced by two interleaved `Put` calls that both start
from the same published catalog `base`: caller A sends its blob for `a`,
loads the list, caller B sends its blob for `b`, loads the list, then A
publishes its new list and finally B publishes its own.  Each step is
the corresponding phase of `Fs.put` (see `Fs.put_phases`), and every
transport call of both callers succeeds. -/
def racedChannel (base : List String) (a b : String) (da db : List Nat) : List Msg :=
  [catalogMsg base] ++ [uploadBlobMsg a da] ++ [uploadBlobMsg b db] ++
    [catalogMsg (Fs.putBaseList ([catalogMsg base] ++ [uploadBlobMsg a da]) ++ [a])] ++
    [catalogMsg (Fs.putBaseList
      ([catalogMsg base] ++ [uploadBlobMsg a da] ++ [uploadBlobMsg b db]) ++ [b])]

/- Helper lemmas about the catalog scan. -/

theorem isCatalogDoc_catalogMsg (l : List String) :
    isCatalogDoc (catalogMsg l) = some ⟨"filelist.json", .names l⟩ := rfl

theorem isCatalogDoc_uploadBlobMsg (name : String) (data : List Nat)
    (h : name ≠ "filelist.json") :
    isCatalogDoc (uploadBlobMsg name data) = none := by
  simp [isCatalogDoc, uploadBlobMsg, h]

theorem findLastCatalog_append_catalog (ch : List Msg) (l : List String) :
    findLastCatalog (ch ++ [catalogMsg l]) = some ⟨"filelist.json", .names l⟩ := by
  unfold findLastCatalog
  rw [List.reverse_append]
  simp [List.findSome?_cons, isCatalogDoc_catalogMsg]

theorem findLastCatalog_append_other (ch : List Msg) (m : Msg)
    (h : isCatalogDoc m = none) :
    findLastCatalog (ch ++ [m]) = findLastCatalog ch := by
  unfold findLastCatalog
  rw [List.reverse_append]
  simp [List.findSome?_cons, h]

theorem loadFileList_append_catalog (ch : List Msg) (l : List String) :
    Fs.loadFileList (ch ++ [catalogMsg l]) = .ok l := by
  unfold Fs.loadFileList
  rw [findLastCatalog_append_catalog]
  rfl

theorem loadFileList_append_blob (ch : List Msg) (name : String) (data : List Nat)
    (h : name ≠ "filelist.json") :
    Fs.loadFileList (ch ++ [uploadBlobMsg name data]) = Fs.loadFileList ch := by
  unfold Fs.loadFileList
  rw [findLastCatalog_append_other ch _ (isCatalogDoc_uploadBlobMsg name data h)]

theorem loadFileList_singleton_catalog (l : List String) :
    Fs.loadFileList [catalogMsg l] = .ok l := by
  have h := loadFileList_append_catalog [] l
  simpa using h

/-- A fully successful `Fs.put` decomposed into its phases: append the
blob message, load the base list from the channel that already holds
the blob, append the name, and publish the catalog message. -/
theorem Fs.put_phases (ch : List Msg) (name : String) (data : List Nat) :
    Fs.put ch name data true true =
      ⟨ch ++ [uploadBlobMsg name data] ++
        [catalogMsg (Fs.putBaseList (ch ++ [uploadBlobMsg name data]) ++ [name])],
       .ok none⟩ := rfl

theorem strStarts_empty (s : String) : strStarts "" s = true := by
  unfold strStarts
  cases s.data <;> rfl

/-- C1, counterexample: two interleaved `Put` calls for the distinct
names `a.txt` and `b.txt`, both starting from the published catalog
`["x.txt"]`, with every transport call succeeding; the final listing is
`["x.txt", "b.txt"]` and the successfully published `a.txt` is absent,
so the claimed conflict-retry protocol does not hold. -/
theorem c1_counterexample :
    Fs.list (racedChannel ["x.txt"] "a.txt" "b.txt" [1] [2]) "" =
      .ok [TelegramObject.mk "x.txt", TelegramObject.mk "b.txt"] ∧
    TelegramObject.mk "a.txt" ∉
      [TelegramObject.mk "x.txt", TelegramObject.mk "b.txt"] :=
  ⟨by decide, by decide⟩

/-- C1, amended: `Put` is a naive load-append-publish with no version
token, conflict detection, or retry, so when two `Put` calls for
distinct non-reserved names interleave from the same base catalog, the
later catalog publish overwrites the earlier one and the first name is
missing from the final listing — the append is lost. -/
theorem c1_concurrent_put_loses_update (base : List String) (a b : String)
    (da db : List Nat)
    (ha : a ≠ "filelist.json") (hb : b ≠ "filelist.json")
    (hmem : a ∉ base) (hab : a ≠ b) :
    Fs.list (racedChannel base a b da db) "" =
      .ok ((base ++ [b]).map TelegramObject.mk) ∧
    TelegramObject.mk a ∉ (base ++ [b]).map TelegramObject.mk := by
  have hload2 : Fs.loadFileList
      ([catalogMsg base] ++ [uploadBlobMsg a da] ++ [uploadBlobMsg b db]) = .ok base := by
    rw [loadFileList_append_blob _ b db hb, loadFileList_append_blob _ a da ha,
      loadFileList_singleton_catalog]
  have hbase2 : Fs.putBaseList
      ([catalogMsg base] ++ [uploadBlobMsg a da] ++ [uploadBlobMsg b db]) = base := by
    unfold Fs.putBaseList
    rw [hload2]
  constructor
  · unfold racedChannel
    rw [hbase2]
    unfold Fs.list
    rw [loadFileList_append_catalog]
  · intro hin
    rcases List.mem_map.mp hin with ⟨x, hx, hxa⟩
    have hxeq : x = a := congrArg TelegramObject.name hxa
    subst hxeq
    rcases List.mem_append.mp hx with hcase | hcase
    · exact hmem hcase
    · exact hab (List.mem_singleton.mp hcase)

/-- C1, witness for the amended theorem at the concrete race of
`a.txt` and `b.txt` over base catalog `["x.txt"]`. -/
theorem c1_concurrent_put_loses_update_witness :
    Fs.list (racedChannel ["x.txt"] "a.txt" "b.txt" [1] [2]) "" =
      .ok ((["x.txt"] ++ ["b.txt"]).map TelegramObject.mk) ∧
    TelegramObject.mk "a.txt" ∉ (["x.txt"] ++ ["b.txt"]).map TelegramObject.mk :=
  c1_concurrent_put_loses_update ["x.txt"] "a.txt" "b.txt" [1] [2]
    (by decide) (by decide) (by decide) (by decide)

/-- C2, counterexample: on a channel whose latest catalog payload does
not decode, `loadFileList` does fail with the decode error, but `Put`
succeeds anyway instead of failing with it. -/
theorem c2_counterexample :
    Fs.loadFileList [Msg.mk (some (Doc.mk "filelist.json" (Payload.bytes [0])))] =
      .error .decodeError ∧
    (Fs.put [Msg.mk (some (Doc.mk "filelist.json" (Payload.bytes [0])))] "a.txt" [1]
        true true).result = .ok none :=
  ⟨rfl, rfl⟩

/-- C2, amended: a decode failure makes `loadFileList` and `List` fail
with the decode error, but `Put` swallows every `loadFileList` error
(lines 94-97) and silently substitutes the empty catalog: it succeeds
and afterwards the listing is just the newly appended name. -/
theorem c2_put_swallows_decode_error (ch : List Msg) (p name : String)
    (data : List Nat)
    (h : Fs.loadFileList ch = .error .decodeError)
    (hname : name ≠ "filelist.json") :
    Fs.list ch p = .error .decodeError ∧
    (Fs.put ch name data true true).result = .ok none ∧
    Fs.list (Fs.put ch name data true true).channel "" =
      .ok [TelegramObject.mk name] := by
  have h1 : Fs.loadFileList (ch ++ [uploadBlobMsg name data]) = .error .decodeError := by
    rw [loadFileList_append_blob ch name data hname, h]
  have h2 : Fs.putBaseList (ch ++ [uploadBlobMsg name data]) = [] := by
    unfold Fs.putBaseList
    rw [h1]
  refine ⟨?_, rfl, ?_⟩
  · unfold Fs.list
    rw [h]
  · show Fs.list (ch ++ [uploadBlobMsg name data] ++
        [catalogMsg (Fs.putBaseList (ch ++ [uploadBlobMsg name data]) ++ [name])]) "" = _
    rw [h2]
    unfold Fs.list
    rw [loadFileList_append_catalog]
    rfl

/-- C2, witness for the amended theorem on a concrete channel holding
one undecodable catalog blob. -/
theorem c2_put_swallows_decode_error_witness :
    Fs.list [Msg.mk (some (Doc.mk "filelist.json" (Payload.bytes [0])))] "p" =
      .error .decodeError ∧
    (Fs.put [Msg.mk (some (Doc.mk "filelist.json" (Payload.bytes [0])))] "a.txt" [1]
        true true).result = .ok none ∧
    Fs.list (Fs.put [Msg.mk (some (Doc.mk "filelist.json" (Payload.bytes [0])))]
        "a.txt" [1] true true).channel "" = .ok [TelegramObject.mk "a.txt"] :=
  c2_put_swallows_decode_error _ "p" "a.txt" [1] rfl (by decide)

/-- C3, counterexample: on a channel with no catalog message,
`loadFileList` fails with the not-found error and `List` propagates it,
instead of returning an empty catalog without error. -/
theorem c3_counterexample :
    Fs.loadFileList ([] : List Msg) = .error .notFound ∧
    Fs.list ([] : List Msg) "" = .error .notFound :=
  ⟨rfl, rfl⟩

/-- C3, amended: when the scanned history holds no `filelist.json`
document, `loadFileList` fails with the not-found error and `List`
propagates it; only `Put` treats the missing catalog as empty and
proceeds, publishing a catalog containing just the new name. -/
theorem c3_missing_catalog_is_error (ch : List Msg) (p name : String)
    (data : List Nat)
    (h : findLastCatalog ch = none) (hname : name ≠ "filelist.json") :
    Fs.loadFileList ch = .error .notFound ∧
    Fs.list ch p = .error .notFound ∧
    Fs.list (Fs.put ch name data true true).channel "" =
      .ok [TelegramObject.mk name] := by
  have h0 : Fs.loadFileList ch = .error .notFound := by
    unfold Fs.loadFileList
    rw [h]
  have h1 : Fs.loadFileList (ch ++ [uploadBlobMsg name data]) = .error .notFound := by
    rw [loadFileList_append_blob ch name data hname, h0]
  have h2 : Fs.putBaseList (ch ++ [uploadBlobMsg name data]) = [] := by
    unfold Fs.putBaseList
    rw [h1]
  refine ⟨h0, ?_, ?_⟩
  · unfold Fs.list
    rw [h0]
  · show Fs.list (ch ++ [uploadBlobMsg name data] ++
        [catalogMsg (Fs.putBaseList (ch ++ [uploadBlobMsg name data]) ++ [name])]) "" = _
    rw [h2]
    unfold Fs.list
    rw [loadFileList_append_catalog]
    rfl

/-- C3, witness for the amended theorem on the empty channel. -/
theorem c3_missing_catalog_is_error_witness :
    Fs.loadFileList ([] : List Msg) = .error .notFound ∧
    Fs.list ([] : List Msg) "sub" = .error .notFound ∧
    Fs.list (Fs.put [] "a.txt" [1] true true).channel "" =
      .ok [TelegramObject.mk "a.txt"] :=
  c3_missing_catalog_is_error [] "sub" "a.txt" [1] rfl (by decide)

/-- C4, counterexample: a `Put` whose name is the reserved
`filelist.json` is not rejected — it succeeds and its blob message is
uploaded to the channel. -/
theorem c4_counterexample :
    (Fs.put [] "filelist.json" [7] true true).result = .ok none ∧
    uploadBlobMsg "filelist.json" [7] ∈
      (Fs.put [] "filelist.json" [7] true true).channel :=
  ⟨rfl, by decide⟩

/-- C4, amended: `Put` performs no reserved-name check; a request named
`filelist.json` is uploaded like any other name, succeeds, and leaves
its blob document on the channel. -/
theorem c4_no_reserved_name_check (ch : List Msg) (data : List Nat) :
    (Fs.put ch "filelist.json" data true true).result = .ok none ∧
    uploadBlobMsg "filelist.json" data ∈
      (Fs.put ch "filelist.json" data true true).channel := by
  refine ⟨rfl, ?_⟩
  rw [Fs.put_phases]
  simp

/-- C5, counterexample: with catalog `["a.txt"]` and prefix `"z"`,
`List` returns the `a.txt` entry although its name does not start with
`z`, diverging from the spec's filtered listing. -/
theorem c5_counterexample :
    Fs.list [catalogMsg ["a.txt"]] "z" = .ok [TelegramObject.mk "a.txt"] ∧
    Fs.listSpec [catalogMsg ["a.txt"]] "z" = .ok [] ∧
    Fs.list [catalogMsg ["a.txt"]] "z" ≠ Fs.listSpec [catalogMsg ["a.txt"]] "z" :=
  ⟨rfl, rfl, by decide⟩

/-- C5, amended: `List` ignores its path argument entirely and always
returns every catalog entry in catalog order, which coincides with the
spec's listing for the empty path only. -/
theorem c5_prefix_ignored (ch : List Msg) (p : String) :
    Fs.list ch p = Fs.listSpec ch "" := by
  unfold Fs.list Fs.listSpec
  cases h : Fs.loadFileList ch with
  | error e => rfl
  | ok l => simp [strStarts_empty]

/-- C6: when the blob upload for the object content fails, `Put` aborts
with a transport error, the channel is unchanged and no catalog message
is published, so `List` before and after the failed put agree. -/
theorem c6_blob_failure_isolated (ch : List Msg) (name : String) (data : List Nat)
    (catalogOk : Bool) (p : String) :
    Fs.put ch name data false catalogOk = ⟨ch, .error .transportError⟩ ∧
    Fs.list (Fs.put ch name data false catalogOk).channel p = Fs.list ch p :=
  ⟨rfl, rfl⟩

/-- C7: a successful `Put` publishes the loaded catalog with its name
appended at the end, so the name appears in the subsequent listing; in
particular `put a.txt` then `put b.txt` from an empty channel makes
`list` return `[a.txt, b.txt]` in that order. -/
theorem c7_put_appends_name :
    (∀ (ch : List Msg) (name : String) (data : List Nat),
        Fs.list (Fs.put ch name data true true).channel "" =
          .ok ((Fs.putBaseList (ch ++ [uploadBlobMsg name data]) ++ [name]).map
            TelegramObject.mk) ∧
        TelegramObject.mk name ∈
          (Fs.putBaseList (ch ++ [uploadBlobMsg name data]) ++ [name]).map
            TelegramObject.mk) ∧
    (Fs.put [] "a.txt" [1] true true).result = .ok none ∧
    (Fs.put (Fs.put [] "a.txt" [1] true true).channel "b.txt" [2] true true).result =
      .ok none ∧
    Fs.list (Fs.put (Fs.put [] "a.txt" [1] true true).channel
        "b.txt" [2] true true).channel "" =
      .ok [TelegramObject.mk "a.txt", TelegramObject.mk "b.txt"] := by
  refine ⟨?_, rfl, rfl, by decide⟩
  intro ch name data
  constructor
  · show Fs.list (ch ++ [uploadBlobMsg name data] ++
        [catalogMsg (Fs.putBaseList (ch ++ [uploadBlobMsg name data]) ++ [name])]) "" = _
    unfold Fs.list
    rw [loadFileList_append_catalog]
  · simp

/-- C8: the per-object accessors `Open`, `Update`, `Remove` and `Hash`
fail for every object and every argument, each with one of the two
unsupported-operation sentinels and never with anything else. -/
theorem c8_unsupported_accessors (o : TelegramObject) (ty : Nat) (data : List Nat) :
    TelegramObject.Open o = .error .notImplemented ∧
    TelegramObject.Update o data = .error .notImplemented ∧
    TelegramObject.Remove o = .error .notImplemented ∧
    TelegramObject.Hash o ty = .error .hashUnsupported ∧
    Err.notImplemented.isUnsupported = true ∧
    Err.hashUnsupported.isUnsupported = true :=
  ⟨rfl, rfl, rfl, rfl, rfl, rfl⟩

/-- C9, counterexample: querying the modification time of an object
succeeds with the fabricated zero timestamp instead of failing with an
unsupported-operation error. -/
theorem c9_counterexample :
    TelegramObject.ModTime (TelegramObject.mk "a.txt") = .ok (Time.mk 0) := rfl

/-- C9, amended: `ModTime` returns the zero time with no error — a
fabricated value — for every object, unlike `Hash`, which does report
an unsupported-operation error. -/
theorem c9_modtime_fabricated (o : TelegramObject) (ty : Nat) :
    TelegramObject.ModTime o = .ok (Time.mk 0) ∧
    TelegramObject.Hash o ty = .error .hashUnsupported :=
  ⟨rfl, rfl⟩

/-- C10: a fully successful `Put` returns `nil, nil` (line 130), i.e. no
object handle at all, contradicting the requirement to return a handle
referencing the stored object; the code marks this with a TODO. -/
theorem c10_put_returns_no_handle :
    (Fs.put [] "a.txt" [1] true true).result = .ok none := rfl
